import Mathlib

/-
Shallow embedding of `src/fastapi_users/router/users.py` (the users router of
fastapi-users), together with the collaborators it consumes.  The router file
is the authority for the handler bodies, the try/except structure, the error
translation and the route wiring.  The collaborators it imports
(`UserManager`, the pydantic update models, the `Authenticator`) are not part
of the provided sources; their definitions below are modelled from the spec
and carry a doc comment saying so.
-/

set_option maxHeartbeats 1000000

namespace FastapiUsers

/-- An account record as held by the account store: opaque identifier, email,
hashed credential and the three privilege flags.  Mirrors
`models.BaseUserDB`. -/
structure Account where
  id : Nat
  email : String
  hashed_password : String
  is_active : Bool
  is_superuser : Bool
  is_verified : Bool
deriving DecidableEq, Repr

/-- The PATCH payload (`models.BaseUserUpdate`): every settable field is
optional; `none` means the field was not supplied in the request body. -/
structure UserUpdate where
  password : Option String
  email : Option String
  is_active : Option Bool
  is_superuser : Option Bool
  is_verified : Option Bool
deriving DecidableEq, Repr

/-- Modelled from the spec: `BaseUserUpdate.create_update_dict` is not under
`src/` (the router only calls it).  Per §4.1, in self mode "only
non-privileged fields are copied from payload into the change set —
privileged fields present in payload are dropped, not errored". -/
def UserUpdate.create_update_dict (u : UserUpdate) : UserUpdate :=
  { u with is_active := none, is_superuser := none, is_verified := none }

/-- Modelled from the spec: `BaseUserUpdate.create_update_dict_superuser` is
not under `src/`.  Per §4.1, for privileged mode "all settable fields
including `active`/`verified`/`superuser` are copied". -/
def UserUpdate.create_update_dict_superuser (u : UserUpdate) : UserUpdate := u

/-- Domain exceptions raised by the manager or the after-update handler:
`invalidPassword` and `userAlreadyExists` are the two caught by the router;
`userNotExists` is caught by `get_user_or_404`; `other` stands for any further
exception, which the router does not catch. -/
inductive DomainError where
  | invalidPassword (reason : String)
  | userAlreadyExists
  | userNotExists
  | other (msg : String)
deriving DecidableEq, Repr

/-- The persistent account store, owned by the store gateway. -/
structure Store where
  users : List Account
deriving DecidableEq, Repr

/-- The user manager: caller-defined password policy (`some reason` means the
proposed password is rejected with that reason) and credential hashing. -/
structure UserManager where
  validatePassword : String → Option String
  hashPassword : String → String

/-- Store-side email-uniqueness check: the proposed email collides with an
account other than the update target. -/
def emailConflict (st : Store) (target : Account) (em : String) : Bool :=
  st.users.any fun a => a.email == em && a.id != target.id

/-- Apply a field-change set to an account: each field present in the change
set overwrites the account's field; a proposed password is stored hashed. -/
def applyChangeSet (hash : String → String) (acc : Account) (d : UserUpdate) :
    Account :=
  { acc with
    email := d.email.getD acc.email,
    hashed_password := (d.password.map hash).getD acc.hashed_password,
    is_active := d.is_active.getD acc.is_active,
    is_superuser := d.is_superuser.getD acc.is_superuser,
    is_verified := d.is_verified.getD acc.is_verified }

/-- Write the applied change set back to the store: the record with the
target's identifier is replaced by the updated account. -/
def UserManager.writeBack (mgr : UserManager) (user : Account)
    (d : UserUpdate) (st : Store) : Store × Account :=
  (⟨st.users.map fun a =>
      if a.id == user.id then applyChangeSet mgr.hashPassword user d else a⟩,
   applyChangeSet mgr.hashPassword user d)

/-- Persist step: the store enforces email uniqueness at write time; on a
collision nothing is written and `UserAlreadyExists` is raised. -/
def UserManager.persist (mgr : UserManager) (user : Account)
    (d : UserUpdate) (st : Store) : Except DomainError (Store × Account) :=
  match d.email with
  | some em =>
    if emailConflict st user em then .error .userAlreadyExists
    else .ok (mgr.writeBack user d st)
  | none => .ok (mgr.writeBack user d st)

/-- Validate-then-persist: a proposed password is checked against the
caller-defined rules first; a structured failure reason is raised as
`InvalidPasswordException`; otherwise the change set is persisted. -/
def UserManager.validateAndPersist (mgr : UserManager) (user : Account)
    (d : UserUpdate) (st : Store) : Except DomainError (Store × Account) :=
  match d.password with
  | some pw =>
    match mgr.validatePassword pw with
    | some reason => .error (.invalidPassword reason)
    | none => mgr.persist user d st
  | none => mgr.persist user d st

/-- Modelled from the spec: `UserManager.update` is not under `src/` (the
router only calls it with `safe=True` or `safe=False`).  Per §4.1–§4.2 it
extracts the change set according to the mode (safe ↦ self extraction,
unsafe ↦ privileged extraction), validates a proposed password against the
caller-defined rules, then persists through the store, which enforces email
uniqueness; each failure is terminal and leaves the store untouched. -/
def UserManager.update (mgr : UserManager) (user_update : UserUpdate)
    (user : Account) (safe : Bool) (st : Store) :
    Except DomainError (Store × Account) :=
  mgr.validateAndPersist user
    (if safe then user_update.create_update_dict
     else user_update.create_update_dict_superuser) st

/-- Modelled from the spec: `UserManager.get` is not under `src/`.  Per §6,
`get_account(id) -> Account | NotFoundError`: look the identifier up in the
store, raising `UserNotExists` when absent. -/
def UserManager.get (_mgr : UserManager) (id : Nat) (st : Store) :
    Except DomainError Account :=
  match st.users.find? (fun a => a.id == id) with
  | some u => .ok u
  | none => .error .userNotExists

/-- Modelled from the spec: `UserManager.delete` is not under `src/`.  Per §6,
`delete_account(account) -> ()`: remove the account's record from the
store. -/
def UserManager.delete (_mgr : UserManager) (user : Account) (st : Store) :
    Store :=
  ⟨st.users.filter fun a => a.id != user.id⟩

/-- The machine-readable error codes used by the update routes
(`ErrorCode` in `router/common.py`). -/
inductive ErrorCode where
  | UPDATE_USER_INVALID_PASSWORD
  | UPDATE_USER_EMAIL_ALREADY_EXISTS
deriving DecidableEq, Repr

/-- The `detail` payload of an HTTPException raised by the router: either a
bare code or a code together with a structured reason. -/
inductive Detail where
  | codeOnly (code : ErrorCode)
  | codeWithReason (code : ErrorCode) (reason : String)
deriving DecidableEq, Repr

/-- Authorization failures produced by the principal resolver. -/
inductive AuthError where
  | unauthorized
  | forbidden
deriving DecidableEq, Repr

/-- Outcome of one handler/route invocation: a success response with status
and optional body, an HTTPException with status and optional detail, an
authorization failure from the resolver gate, or an exception the router does
not catch. -/
inductive HandlerResult where
  | ok (status : Nat) (body : Option Account)
  | httpError (status : Nat) (detail : Option Detail)
  | authError (e : AuthError)
  | uncaught (e : DomainError)
deriving DecidableEq, Repr

/-- The originating request context, passed through to the after-update
handler; opaque to the router. -/
structure Request where
  ctx : Nat
deriving DecidableEq, Repr

/-- The optional `after_update` callback: invoked with the updated account,
the applied change set and the request context; it may itself raise. -/
def AfterUpdateHook : Type :=
  Account → UserUpdate → Request → Except DomainError Unit

/-- Observable steps of one request, used to state ordering properties:
store lookup, store write (with the account passed to the store update),
after-update invocation (with its three arguments), store deletion, and
returning the success response. -/
inductive Event where
  | lookup (id : Nat)
  | persist (target : Account)
  | notify (updated : Account) (change_set : UserUpdate) (request : Request)
  | delete (target : Account)
  | respond
deriving DecidableEq, Repr

/-- Whether an event is an after-update invocation. -/
def Event.isNotify : Event → Bool
  | .notify _ _ _ => true
  | _ => false

/-- Translation of the two caught domain exceptions into wire errors, shared
verbatim by both update handlers in the source: `InvalidPasswordException`
becomes 400 with code `UPDATE_USER_INVALID_PASSWORD` and the exception's
reason; `UserAlreadyExists` becomes 400 with the fixed code
`UPDATE_USER_EMAIL_ALREADY_EXISTS`; anything else is not caught. -/
def translate_update_error : DomainError → HandlerResult
  | .invalidPassword reason =>
      .httpError 400 (some (.codeWithReason .UPDATE_USER_INVALID_PASSWORD reason))
  | .userAlreadyExists =>
      .httpError 400 (some (.codeOnly .UPDATE_USER_EMAIL_ALREADY_EXISTS))
  | e => .uncaught e

/-- The `update_me` handler body (PATCH `/me`): call the manager update in
safe mode on the authenticated caller's own account; on success run the
configured `after_update` handler with the updated user, the safe change set
and the request; the try/except block encloses both the update call and the
handler invocation and catches exactly `InvalidPasswordException` and
`UserAlreadyExists`.  Returns the response, the resulting store and the
request's event trace. -/
def update_me (mgr : UserManager) (after_update : Option AfterUpdateHook)
    (request : Request) (user_update : UserUpdate) (user : Account)
    (st : Store) : HandlerResult × Store × List Event :=
  match mgr.update user_update user true st with
  | .error e => (translate_update_error e, st, [])
  | .ok (st', updated_user) =>
    match after_update with
    | none => (.ok 200 (some updated_user), st', [.persist user, .respond])
    | some hk =>
      match hk updated_user user_update.create_update_dict request with
      | .ok _ =>
          (.ok 200 (some updated_user), st',
            [.persist user,
             .notify updated_user user_update.create_update_dict request,
             .respond])
      | .error e =>
          (translate_update_error e, st',
            [.persist user,
             .notify updated_user user_update.create_update_dict request])

/-- The `update_user` handler body (PATCH `/{id}`): identical to `update_me`
except that the target is the looked-up account, the manager update runs in
unsafe mode and the handler receives the privileged change set. -/
def update_user (mgr : UserManager) (after_update : Option AfterUpdateHook)
    (request : Request) (user_update : UserUpdate) (user : Account)
    (st : Store) : HandlerResult × Store × List Event :=
  match mgr.update user_update user false st with
  | .error e => (translate_update_error e, st, [])
  | .ok (st', updated_user) =>
    match after_update with
    | none => (.ok 200 (some updated_user), st', [.persist user, .respond])
    | some hk =>
      match hk updated_user user_update.create_update_dict_superuser request with
      | .ok _ =>
          (.ok 200 (some updated_user), st',
            [.persist user,
             .notify updated_user user_update.create_update_dict_superuser
               request,
             .respond])
      | .error e =>
          (translate_update_error e, st',
            [.persist user,
             .notify updated_user user_update.create_update_dict_superuser
               request])

/-- The `delete_user` handler body (DELETE `/{id}`): delete the looked-up
account through the manager and return an empty 204 response; the source
defines no post-delete callback. -/
def delete_user (mgr : UserManager) (user : Account) (st : Store) :
    HandlerResult × Store × List Event :=
  (.ok 204 none, mgr.delete user st, [.delete user, .respond])

/-- Modelled from the spec: `Authenticator.current_user` is not under `src/`.
Per §4.2 step 1 and §9, the resolver gate requires an authenticated
principal that is active when demanded, verified when demanded and superuser
when demanded; on failure the request terminates with an authorization
error. -/
def current_user (active verified superuser : Bool)
    (principal : Option Account) : Except AuthError Account :=
  match principal with
  | none => .error .unauthorized
  | some u =>
    if active && !u.is_active then .error .forbidden
    else if verified && !u.is_verified then .error .forbidden
    else if superuser && !u.is_superuser then .error .forbidden
    else .ok u

/-- The arguments `get_users_router` was called with: the user manager, the
optional after-update callback and the `requires_verification` flag. -/
structure RouterConfig where
  user_manager : UserManager
  after_update : Option AfterUpdateHook
  requires_verification : Bool

/-- `authenticator.current_user(active=True, verified=requires_verification)`:
the gate used by the `/me` routes. -/
def get_current_active_user (cfg : RouterConfig) :
    Option Account → Except AuthError Account :=
  current_user true cfg.requires_verification false

/-- `authenticator.current_user(active=True, verified=requires_verification,
superuser=True)`: the gate used by the `/{id}` routes. -/
def get_current_superuser (cfg : RouterConfig) :
    Option Account → Except AuthError Account :=
  current_user true cfg.requires_verification true

/-- `get_user_or_404`: look the path identifier up through the manager,
turning `UserNotExists` into a bare 404 HTTPException; any other exception
from the manager is not caught. -/
def get_user_or_404 (mgr : UserManager) (id : Nat) (st : Store) :
    Except HandlerResult Account :=
  match mgr.get id st with
  | .ok u => .ok u
  | .error .userNotExists => .error (.httpError 404 none)
  | .error e => .error (.uncaught e)

/-- Everything observable about one dispatched request: the response, the
store it leaves behind and the event trace. -/
structure RouteOutcome where
  response : HandlerResult
  store : Store
  events : List Event
deriving DecidableEq, Repr

/-- Package a handler triple as a route outcome. -/
def toOutcome (r : HandlerResult × Store × List Event) : RouteOutcome :=
  ⟨r.1, r.2.1, r.2.2⟩

/-- Package a handler triple as a route outcome, recording the store lookup
that preceded the handler on the id-addressed routes. -/
def toOutcomeAfterLookup (id : Nat)
    (r : HandlerResult × Store × List Event) : RouteOutcome :=
  ⟨r.1, r.2.1, .lookup id :: r.2.2⟩

/-- GET `/me`: gate on the active-user dependency, then return the caller's
own account. -/
def route_get_me (cfg : RouterConfig) (principal : Option Account)
    (st : Store) : RouteOutcome :=
  match get_current_active_user cfg principal with
  | .error e => ⟨.authError e, st, []⟩
  | .ok user => ⟨.ok 200 (some user), st, [.respond]⟩

/-- PATCH `/me`: gate on the active-user dependency, then run `update_me` on
the resolved principal; the route accepts no target identifier. -/
def route_patch_me (cfg : RouterConfig) (request : Request)
    (user_update : UserUpdate) (principal : Option Account) (st : Store) :
    RouteOutcome :=
  match get_current_active_user cfg principal with
  | .error e => ⟨.authError e, st, []⟩
  | .ok user =>
    toOutcome
      (update_me cfg.user_manager cfg.after_update request user_update user st)

/-- GET `/{id}`: gate on the superuser dependency, then `get_user_or_404`,
then return the looked-up account. -/
def route_get_id (cfg : RouterConfig) (id : Nat) (principal : Option Account)
    (st : Store) : RouteOutcome :=
  match get_current_superuser cfg principal with
  | .error e => ⟨.authError e, st, []⟩
  | .ok _ =>
    match get_user_or_404 cfg.user_manager id st with
    | .error r => ⟨r, st, [.lookup id]⟩
    | .ok user => ⟨.ok 200 (some user), st, [.lookup id, .respond]⟩

/-- PATCH `/{id}`: gate on the superuser dependency, then `get_user_or_404`,
then run `update_user` on the looked-up account. -/
def route_patch_id (cfg : RouterConfig) (request : Request) (id : Nat)
    (user_update : UserUpdate) (principal : Option Account) (st : Store) :
    RouteOutcome :=
  match get_current_superuser cfg principal with
  | .error e => ⟨.authError e, st, []⟩
  | .ok _ =>
    match get_user_or_404 cfg.user_manager id st with
    | .error r => ⟨r, st, [.lookup id]⟩
    | .ok user =>
      toOutcomeAfterLookup id
        (update_user cfg.user_manager cfg.after_update request user_update
          user st)

/-- DELETE `/{id}`: gate on the superuser dependency, then `get_user_or_404`,
then run `delete_user` on the looked-up account. -/
def route_delete_id (cfg : RouterConfig) (id : Nat)
    (principal : Option Account) (st : Store) : RouteOutcome :=
  match get_current_superuser cfg principal with
  | .error e => ⟨.authError e, st, []⟩
  | .ok _ =>
    match get_user_or_404 cfg.user_manager id st with
    | .error r => ⟨r, st, [.lookup id]⟩
    | .ok user =>
      toOutcomeAfterLookup id (delete_user cfg.user_manager user st)

/-! Concrete fixtures used to exercise the routes on closed inputs. -/

/-- A manager whose password policy accepts everything. -/
def mgrNoRules : UserManager := ⟨fun _ => none, fun s => s ++ "#"⟩

/-- A manager whose password policy rejects everything with a fixed reason. -/
def mgrRejectAll : UserManager := ⟨fun _ => some "too simple", fun s => s⟩

/-- An active, verified, non-superuser account. -/
def alice : Account := ⟨1, "alice@example.com", "ha", true, false, true⟩

/-- An active, verified superuser account. -/
def bob : Account := ⟨2, "bob@example.com", "hb", true, true, true⟩

/-- An active, unverified, non-superuser account. -/
def carol : Account := ⟨3, "carol@example.com", "hc", true, false, false⟩

/-- A store holding the three fixture accounts. -/
def baseStore : Store := ⟨[alice, bob, carol]⟩

/-- A fixture request context. -/
def req0 : Request := ⟨0⟩

/-- Router configuration with no after-update handler. -/
def cfgPlain : RouterConfig := ⟨mgrNoRules, none, false⟩

/-- An after-update handler that succeeds. -/
def hookOk : AfterUpdateHook := fun _ _ _ => .ok ()

/-- Router configuration with a succeeding after-update handler. -/
def cfgHook : RouterConfig := ⟨mgrNoRules, some hookOk, false⟩

/-- An after-update handler that raises `InvalidPasswordException`. -/
def hookRaisePw : AfterUpdateHook :=
  fun _ _ _ => .error (.invalidPassword "hook says no")

/-- Router configuration whose after-update handler raises. -/
def cfgHookRaise : RouterConfig := ⟨mgrNoRules, some hookRaisePw, false⟩

/-- Router configuration whose password policy rejects everything. -/
def cfgReject : RouterConfig := ⟨mgrRejectAll, none, false⟩

/-- A payload that only tries to set `superuser=true`. -/
def tryAdmin : UserUpdate := ⟨none, none, none, some true, none⟩

/-- A payload proposing bob's email (a collision for any other account). -/
def tryEmail : UserUpdate := ⟨none, some "bob@example.com", none, none, none⟩

/-- A payload proposing a new password. -/
def tryPassword : UserUpdate := ⟨some "pw", none, none, none, none⟩

/-- Carol after a privileged update that set `superuser=true`. -/
def carolSup : Account := ⟨3, "carol@example.com", "hc", true, true, false⟩

/-- The base store after carol was promoted to superuser. -/
def storeCarolSup : Store := ⟨[alice, bob, carolSup]⟩

/-! Helper lemmas about the embedded definitions. -/

theorem toOutcome_response (r : HandlerResult × Store × List Event) :
    (toOutcome r).response = r.1 := rfl

theorem toOutcome_store (r : HandlerResult × Store × List Event) :
    (toOutcome r).store = r.2.1 := rfl

theorem toOutcome_events (r : HandlerResult × Store × List Event) :
    (toOutcome r).events = r.2.2 := rfl

theorem translate_update_error_ne_ok (e : DomainError) (s : Nat)
    (b : Option Account) : translate_update_error e ≠ .ok s b := by
  cases e <;> simp [translate_update_error]

theorem UserManager.validateAndPersist_ok (mgr : UserManager) (user : Account)
    (d : UserUpdate) (st : Store) (p : Store × Account)
    (h : mgr.validateAndPersist user d st = .ok p) :
    p = mgr.writeBack user d st := by
  unfold UserManager.validateAndPersist UserManager.persist at h
  repeat' split at h
  all_goals simp_all

theorem UserManager.update_ok (mgr : UserManager) (uu : UserUpdate)
    (user : Account) (safe : Bool) (st : Store) (p : Store × Account)
    (h : mgr.update uu user safe st = .ok p) :
    p = mgr.writeBack user
      (if safe then uu.create_update_dict else uu.create_update_dict_superuser)
      st := by
  unfold UserManager.update at h
  exact mgr.validateAndPersist_ok user _ st p h

theorem create_update_dict_password (u : UserUpdate) :
    u.create_update_dict.password = u.password := rfl

theorem create_update_dict_email (u : UserUpdate) :
    u.create_update_dict.email = u.email := rfl

theorem create_update_dict_is_active (u : UserUpdate) :
    u.create_update_dict.is_active = none := rfl

theorem create_update_dict_is_superuser (u : UserUpdate) :
    u.create_update_dict.is_superuser = none := rfl

theorem create_update_dict_is_verified (u : UserUpdate) :
    u.create_update_dict.is_verified = none := rfl

theorem create_update_dict_superuser_id (u : UserUpdate) :
    u.create_update_dict_superuser = u := rfl

theorem current_user_ok (a v s : Bool) (p : Option Account) (u : Account)
    (h : current_user a v s p = .ok u) : p = some u := by
  cases p with
  | none => exact absurd h (by simp [current_user])
  | some x =>
    simp only [current_user] at h
    split_ifs at h
    simp_all

theorem update_me_response_ok (mgr : UserManager)
    (hook : Option AfterUpdateHook) (request : Request) (uu : UserUpdate)
    (user : Account) (st : Store) (s : Nat) (b : Option Account)
    (h : (update_me mgr hook request uu user st).1 = .ok s b) :
    s = 200 ∧
    b = some (applyChangeSet mgr.hashPassword user uu.create_update_dict) := by
  unfold update_me at h
  cases hupd : mgr.update uu user true st with
  | error e =>
    rw [hupd] at h
    exact absurd h (translate_update_error_ne_ok e s b)
  | ok p =>
    obtain ⟨st1, u1⟩ := p
    have hw := mgr.update_ok uu user true st _ hupd
    simp only [if_pos rfl] at hw
    have hu1 : u1 = applyChangeSet mgr.hashPassword user uu.create_update_dict := by
      have := congrArg Prod.snd hw
      simpa [UserManager.writeBack] using this
    rw [hupd] at h
    cases hook with
    | none => simp_all
    | some hk =>
      cases hhk : hk u1 uu.create_update_dict request with
      | ok _ => simp_all
      | error e =>
        simp only [hhk] at h
        exact absurd h (translate_update_error_ne_ok e s b)

theorem update_user_response_ok (mgr : UserManager)
    (hook : Option AfterUpdateHook) (request : Request) (uu : UserUpdate)
    (user : Account) (st : Store) (s : Nat) (b : Option Account)
    (h : (update_user mgr hook request uu user st).1 = .ok s b) :
    s = 200 ∧
    b = some (applyChangeSet mgr.hashPassword user
      uu.create_update_dict_superuser) := by
  unfold update_user at h
  cases hupd : mgr.update uu user false st with
  | error e =>
    rw [hupd] at h
    exact absurd h (translate_update_error_ne_ok e s b)
  | ok p =>
    obtain ⟨st1, u1⟩ := p
    have hw := mgr.update_ok uu user false st _ hupd
    simp only [if_neg (by simp : ¬False)] at hw
    have hu1 : u1 = applyChangeSet mgr.hashPassword user
        uu.create_update_dict_superuser := by
      have := congrArg Prod.snd hw
      simpa [UserManager.writeBack] using this
    rw [hupd] at h
    cases hook with
    | none => simp_all
    | some hk =>
      cases hhk : hk u1 uu.create_update_dict_superuser request with
      | ok _ => simp_all
      | error e =>
        simp only [hhk] at h
        exact absurd h (translate_update_error_ne_ok e s b)

theorem toOutcomeAfterLookup_response (id : Nat)
    (r : HandlerResult × Store × List Event) :
    (toOutcomeAfterLookup id r).response = r.1 := rfl

theorem toOutcomeAfterLookup_store (id : Nat)
    (r : HandlerResult × Store × List Event) :
    (toOutcomeAfterLookup id r).store = r.2.1 := rfl

theorem toOutcomeAfterLookup_events (id : Nat)
    (r : HandlerResult × Store × List Event) :
    (toOutcomeAfterLookup id r).events = .lookup id :: r.2.2 := rfl

theorem get_user_or_404_error (mgr : UserManager) (id : Nat) (st : Store)
    (r : HandlerResult) (h : get_user_or_404 mgr id st = .error r) :
    r = .httpError 404 none := by
  unfold get_user_or_404 UserManager.get at h
  cases hf : List.find? (fun a => a.id == id) st.users with
  | some u => rw [hf] at h; simp at h
  | none => rw [hf] at h; simp at h; exact h.symm

theorem writeBack_length (mgr : UserManager) (user : Account)
    (d : UserUpdate) (st : Store) :
    (mgr.writeBack user d st).1.users.length = st.users.length := by
  simp [UserManager.writeBack]

theorem writeBack_preserves_others (mgr : UserManager) (user : Account)
    (d : UserUpdate) (st : Store) (i : Nat) (a : Account)
    (h : st.users[i]? = some a) (hne : a.id ≠ user.id) :
    (mgr.writeBack user d st).1.users[i]? = some a := by
  simp [UserManager.writeBack, List.getElem?_map, h, hne]

theorem update_me_store (mgr : UserManager) (hook : Option AfterUpdateHook)
    (request : Request) (uu : UserUpdate) (user : Account) (st : Store) :
    (update_me mgr hook request uu user st).2.1 = st ∨
    (update_me mgr hook request uu user st).2.1 =
      (mgr.writeBack user uu.create_update_dict st).1 := by
  unfold update_me
  cases hupd : mgr.update uu user true st with
  | error e => left; rfl
  | ok p =>
    obtain ⟨st1, u1⟩ := p
    have hw := mgr.update_ok uu user true st _ hupd
    have hst1 : st1 = (mgr.writeBack user uu.create_update_dict st).1 := by
      have := congrArg Prod.fst hw
      simpa using this
    right
    cases hook with
    | none => simpa using hst1
    | some hk =>
      cases hhk : hk u1 uu.create_update_dict request <;> simp [hhk, hst1]

theorem update_me_persist_target (mgr : UserManager)
    (hook : Option AfterUpdateHook) (request : Request) (uu : UserUpdate)
    (user : Account) (st : Store) (t : Account)
    (h : Event.persist t ∈ (update_me mgr hook request uu user st).2.2) :
    t = user := by
  unfold update_me at h
  cases hupd : mgr.update uu user true st with
  | error e => rw [hupd] at h; simp at h
  | ok p =>
    obtain ⟨st1, u1⟩ := p
    rw [hupd] at h
    cases hook with
    | none => simp_all
    | some hk =>
      cases hhk : hk u1 uu.create_update_dict request <;> simp_all

theorem current_user_some_ok_iff (a v s : Bool) (u : Account) :
    current_user a v s (some u) = .ok u ↔
      ((a = true → u.is_active = true) ∧ (v = true → u.is_verified = true) ∧
       (s = true → u.is_superuser = true)) := by
  unfold current_user
  cases a <;> cases v <;> cases s <;> cases hA : u.is_active <;>
    cases hV : u.is_verified <;> cases hS : u.is_superuser <;> simp_all

/-! Claim theorems. -/

/-- C1: every payload submitted to PATCH `/me` leaves the privileged flags
`superuser`, `verified` and `active` of the resulting account unchanged, even
when the payload carries values for them (e.g. `superuser=true`): the self
path runs the manager update in safe mode, whose change extraction silently
drops those fields instead of rejecting them. -/
theorem self_update_never_touches_privileged_flags
    (cfg : RouterConfig) (request : Request) (user_update : UserUpdate)
    (user : Account) (st : Store) (u' : Account)
    (h : (route_patch_me cfg request user_update (some user) st).response
        = .ok 200 (some u')) :
    u'.is_superuser = user.is_superuser ∧
    u'.is_verified = user.is_verified ∧
    u'.is_active = user.is_active := by
  unfold route_patch_me at h
  cases hg : get_current_active_user cfg (some user) with
  | error e => rw [hg] at h; simp at h
  | ok v =>
    rw [hg] at h
    unfold get_current_active_user at hg
    have hv := current_user_ok _ _ _ _ _ hg
    obtain rfl : user = v := Option.some.inj hv
    rw [toOutcome_response] at h
    obtain ⟨-, hb⟩ := update_me_response_ok _ _ _ _ _ _ _ _ h
    obtain rfl : u' = applyChangeSet cfg.user_manager.hashPassword user
        user_update.create_update_dict := Option.some.inj hb
    refine ⟨?_, ?_, ?_⟩ <;>
      simp [applyChangeSet, create_update_dict_is_superuser,
        create_update_dict_is_verified, create_update_dict_is_active]

/-- C1 witness: alice PATCHes `/me` with a payload carrying `superuser=true`;
the route succeeds and every privileged flag of the returned account is
unchanged. -/
theorem self_update_never_touches_privileged_flags_witness :
    tryAdmin.is_superuser = some true ∧
    (alice.is_superuser = alice.is_superuser ∧
     alice.is_verified = alice.is_verified ∧
     alice.is_active = alice.is_active) :=
  ⟨rfl, self_update_never_touches_privileged_flags cfgPlain req0 tryAdmin
    alice baseStore alice (by decide)⟩

/-- C2: PATCH `/me` can only mutate the caller's own account: the gate
resolves the principal itself (no target identifier is accepted on the
route), the account handed to the store write is exactly that principal, and
every stored record whose identifier differs from the caller's is left
unchanged. -/
theorem self_update_only_mutates_caller
    (cfg : RouterConfig) (request : Request) (user_update : UserUpdate)
    (user : Account) (st : Store) :
    (∀ v, get_current_active_user cfg (some user) = .ok v → v = user) ∧
    (∀ t, Event.persist t ∈
        (route_patch_me cfg request user_update (some user) st).events →
      t = user) ∧
    (route_patch_me cfg request user_update (some user) st).store.users.length
      = st.users.length ∧
    (∀ (i : Nat) (a : Account), st.users[i]? = some a → a.id ≠ user.id →
      (route_patch_me cfg request user_update (some user) st).store.users[i]?
        = some a) := by
  refine ⟨?_, ?_, ?_, ?_⟩
  · intro v hg
    unfold get_current_active_user at hg
    exact (Option.some.inj (current_user_ok _ _ _ _ _ hg)).symm
  · intro t ht
    unfold route_patch_me at ht
    cases hg : get_current_active_user cfg (some user) with
    | error e => rw [hg] at ht; simp at ht
    | ok v =>
      rw [hg] at ht
      unfold get_current_active_user at hg
      obtain rfl : user = v := Option.some.inj (current_user_ok _ _ _ _ _ hg)
      rw [toOutcome_events] at ht
      exact update_me_persist_target _ _ _ _ _ _ _ ht
  · unfold route_patch_me
    cases hg : get_current_active_user cfg (some user) with
    | error e => rfl
    | ok v =>
      rw [toOutcome_store]
      rcases update_me_store cfg.user_manager cfg.after_update request
          user_update v st with hst | hst
      · rw [hst]
      · rw [hst]; exact writeBack_length _ _ _ _
  · intro i a ha hne
    unfold route_patch_me
    cases hg : get_current_active_user cfg (some user) with
    | error e => exact ha
    | ok v =>
      unfold get_current_active_user at hg
      obtain rfl : user = v := Option.some.inj (current_user_ok _ _ _ _ _ hg)
      rw [toOutcome_store]
      rcases update_me_store cfg.user_manager cfg.after_update request
          user_update user st with hst | hst
      · rw [hst]; exact ha
      · rw [hst]; exact writeBack_preserves_others _ _ _ _ _ _ ha hne

/-- C2 witness: alice PATCHes `/me` trying `superuser=true`; bob's record at
position 1 of the store is untouched. -/
theorem self_update_only_mutates_caller_witness :
    (route_patch_me cfgPlain req0 tryAdmin (some alice) baseStore).store.users[1]?
      = some bob :=
  (self_update_only_mutates_caller cfgPlain req0 tryAdmin alice
    baseStore).2.2.2 1 bob (by decide) (by decide)

/-- C3: every payload to PATCH `/{id}` carrying `superuser=true` that the
store accepts yields an account whose `superuser` flag is true: the admin
path runs the manager update in unsafe mode, whose privileged extraction
copies `active`, `verified` and `superuser` from the payload into the
applied change set. -/
theorem admin_update_applies_superuser
    (cfg : RouterConfig) (request : Request) (id : Nat)
    (user_update : UserUpdate) (principal : Option Account) (st : Store)
    (u' : Account)
    (hsup : user_update.is_superuser = some true)
    (h : (route_patch_id cfg request id user_update principal st).response
        = .ok 200 (some u')) :
    u'.is_superuser = true := by
  unfold route_patch_id at h
  cases hg : get_current_superuser cfg principal with
  | error e => rw [hg] at h; simp at h
  | ok v =>
    rw [hg] at h
    cases hl : get_user_or_404 cfg.user_manager id st with
    | error r =>
      rw [hl] at h
      obtain rfl := get_user_or_404_error _ _ _ _ hl
      simp at h
    | ok target =>
      rw [hl] at h
      rw [toOutcomeAfterLookup_response] at h
      obtain ⟨-, hb⟩ := update_user_response_ok _ _ _ _ _ _ _ _ h
      obtain rfl : u' = applyChangeSet cfg.user_manager.hashPassword target
          user_update.create_update_dict_superuser := Option.some.inj hb
      simp [applyChangeSet, create_update_dict_superuser_id, hsup]

/-- C3 witness: superuser bob PATCHes carol's id with `superuser=true`; the
returned account has `superuser=true`. -/
theorem admin_update_applies_superuser_witness :
    carolSup.is_superuser = true :=
  admin_update_applies_superuser cfgPlain req0 3 tryAdmin (some bob) baseStore
    carolSup rfl (by decide)

/-- C4: every route is gated by the principal resolver with its row's
requirements — the `/me` routes demand an active principal, verified exactly
when verification is configured as required, and the `/{id}` routes
additionally demand the superuser flag — and a failing gate terminates the
request with the resolver's authorization error before any lookup, persist,
deletion or after-update invocation, leaving the store untouched and the
event trace empty. -/
theorem routes_gated_before_core
    (cfg : RouterConfig) (request : Request) (id : Nat)
    (user_update : UserUpdate) (p : Option Account) (st : Store) :
    (∀ u, get_current_active_user cfg (some u) = .ok u ↔
      (u.is_active = true ∧
       (cfg.requires_verification = true → u.is_verified = true))) ∧
    (∀ u, get_current_superuser cfg (some u) = .ok u ↔
      (u.is_active = true ∧
       (cfg.requires_verification = true → u.is_verified = true) ∧
       u.is_superuser = true)) ∧
    (∀ e, get_current_active_user cfg p = .error e →
      route_get_me cfg p st = ⟨.authError e, st, []⟩ ∧
      route_patch_me cfg request user_update p st
        = ⟨.authError e, st, []⟩) ∧
    (∀ e, get_current_superuser cfg p = .error e →
      route_get_id cfg id p st = ⟨.authError e, st, []⟩ ∧
      route_patch_id cfg request id user_update p st
        = ⟨.authError e, st, []⟩ ∧
      route_delete_id cfg id p st = ⟨.authError e, st, []⟩) := by
  refine ⟨?_, ?_, ?_, ?_⟩
  · intro u
    unfold get_current_active_user
    rw [current_user_some_ok_iff]
    simp
  · intro u
    unfold get_current_superuser
    rw [current_user_some_ok_iff]
    simp [and_assoc]
  · intro e hme
    refine ⟨?_, ?_⟩
    · unfold route_get_me; rw [hme]
    · unfold route_patch_me; rw [hme]
  · intro e hid
    refine ⟨?_, ?_, ?_⟩
    · unfold route_get_id; rw [hid]
    · unfold route_patch_id; rw [hid]
    · unfold route_delete_id; rw [hid]

/-- C4 witness: alice — active and verified but not superuser, so she passes
the `/me` gate — GETs an account by id and is terminated at the superuser
gate with the resolver's error, the store untouched and no lookup, persist,
deletion or after-update step reached. -/
theorem routes_gated_before_core_witness :
    route_get_id cfgPlain 2 (some alice) baseStore
      = ⟨.authError .forbidden, baseStore, []⟩ :=
  ((routes_gated_before_core cfgPlain req0 2 tryAdmin (some alice)
    baseStore).2.2.2 .forbidden rfl).1

/-- C5: an id-addressed request whose identifier resolves to no account
terminates with a bare 404 on each of the three `/{id}` routes, regardless
of the payload; the store is unchanged and the trace holds only the lookup —
no policy check, store write, deletion or after-update invocation occurs. -/
theorem missing_id_yields_404
    (cfg : RouterConfig) (request : Request) (id : Nat)
    (user_update : UserUpdate) (p : Option Account) (st : Store) (v : Account)
    (hg : get_current_superuser cfg p = .ok v)
    (hmiss : cfg.user_manager.get id st = .error .userNotExists) :
    route_get_id cfg id p st = ⟨.httpError 404 none, st, [.lookup id]⟩ ∧
    route_patch_id cfg request id user_update p st
      = ⟨.httpError 404 none, st, [.lookup id]⟩ ∧
    route_delete_id cfg id p st = ⟨.httpError 404 none, st, [.lookup id]⟩ := by
  have h404 : get_user_or_404 cfg.user_manager id st
      = .error (.httpError 404 none) := by
    unfold get_user_or_404
    rw [hmiss]
  refine ⟨?_, ?_, ?_⟩
  · unfold route_get_id; rw [hg, h404]
  · unfold route_patch_id; rw [hg, h404]
  · unfold route_delete_id; rw [hg, h404]

/-- C5 witness: superuser bob PATCHes the nonexistent id 99 with a payload;
the route answers a bare 404 and nothing else happens. -/
theorem missing_id_yields_404_witness :
    route_patch_id cfgPlain req0 99 tryAdmin (some bob) baseStore
      = ⟨.httpError 404 none, baseStore, [.lookup 99]⟩ :=
  (missing_id_yields_404 cfgPlain req0 99 tryAdmin (some bob) baseStore bob
    rfl rfl).2.1

/-- C6: both update routes translate domain errors into identical wire
errors: whenever the manager update raises, each handler returns exactly the
shared translation, which maps an invalid password to 400 with code
UPDATE_USER_INVALID_PASSWORD plus the structured reason from the exception,
and an email-uniqueness conflict to 400 with the fixed code
UPDATE_USER_EMAIL_ALREADY_EXISTS. -/
theorem update_routes_translate_errors_identically
    (cfg : RouterConfig) (request : Request) (uu : UserUpdate)
    (user target : Account) (st : Store) (e : DomainError) (reason : String)
    (hself : cfg.user_manager.update uu user true st = .error e)
    (hadmin : cfg.user_manager.update uu target false st = .error e) :
    (update_me cfg.user_manager cfg.after_update request uu user st).1
      = translate_update_error e ∧
    (update_user cfg.user_manager cfg.after_update request uu target st).1
      = translate_update_error e ∧
    translate_update_error (.invalidPassword reason)
      = .httpError 400
          (some (.codeWithReason .UPDATE_USER_INVALID_PASSWORD reason)) ∧
    translate_update_error .userAlreadyExists
      = .httpError 400
          (some (.codeOnly .UPDATE_USER_EMAIL_ALREADY_EXISTS)) := by
  refine ⟨?_, ?_, rfl, rfl⟩
  · unfold update_me; rw [hself]
  · unfold update_user; rw [hadmin]

/-- C6 witness: under a manager whose password policy rejects everything,
both a self and an admin update with a password payload produce the same 400
invalid-password translation. -/
theorem update_routes_translate_errors_identically_witness :
    (update_me cfgReject.user_manager cfgReject.after_update req0 tryPassword
        alice baseStore).1
      = translate_update_error (.invalidPassword "too simple") :=
  (update_routes_translate_errors_identically cfgReject req0 tryPassword
    alice bob baseStore (.invalidPassword "too simple") "x" rfl rfl).1

/-- C7: on each update route the after-update invocation happens iff a
handler was configured and the store update succeeded; when it happens it
happens exactly once, immediately after the persist step and before the
success response, carrying the updated account, the change set extracted for
the route's mode (safe on `/me`, privileged on `/{id}`) and the request
context. -/
theorem after_update_invoked_iff_update_succeeded
    (cfg : RouterConfig) (request : Request) (uu : UserUpdate)
    (user target : Account) (st : Store) :
    (∀ e, cfg.user_manager.update uu user true st = .error e →
      (update_me cfg.user_manager cfg.after_update request uu user st).2.2
        = []) ∧
    (∀ st1 u1, cfg.user_manager.update uu user true st = .ok (st1, u1) →
      (cfg.after_update = none →
        (update_me cfg.user_manager cfg.after_update request uu user st).2.2
          = [.persist user, .respond]) ∧
      (∀ hk, cfg.after_update = some hk →
        ((update_me cfg.user_manager cfg.after_update request uu user
            st).2.2).countP Event.isNotify = 1 ∧
        (hk u1 uu.create_update_dict request = .ok () →
          (update_me cfg.user_manager cfg.after_update request uu user
              st).2.2
            = [.persist user, .notify u1 uu.create_update_dict request,
               .respond]) ∧
        (∀ e, hk u1 uu.create_update_dict request = .error e →
          (update_me cfg.user_manager cfg.after_update request uu user
              st).2.2
            = [.persist user,
               .notify u1 uu.create_update_dict request]))) ∧
    (∀ e, cfg.user_manager.update uu target false st = .error e →
      (update_user cfg.user_manager cfg.after_update request uu target
          st).2.2 = []) ∧
    (∀ st2 u2, cfg.user_manager.update uu target false st = .ok (st2, u2) →
      (cfg.after_update = none →
        (update_user cfg.user_manager cfg.after_update request uu target
            st).2.2 = [.persist target, .respond]) ∧
      (∀ hk, cfg.after_update = some hk →
        ((update_user cfg.user_manager cfg.after_update request uu target
            st).2.2).countP Event.isNotify = 1 ∧
        (hk u2 uu.create_update_dict_superuser request = .ok () →
          (update_user cfg.user_manager cfg.after_update request uu target
              st).2.2
            = [.persist target,
               .notify u2 uu.create_update_dict_superuser request,
               .respond]) ∧
        (∀ e, hk u2 uu.create_update_dict_superuser request = .error e →
          (update_user cfg.user_manager cfg.after_update request uu target
              st).2.2
            = [.persist target,
               .notify u2 uu.create_update_dict_superuser request]))) := by
  refine ⟨?_, ?_, ?_, ?_⟩
  · intro e he
    simp [update_me, he]
  · intro st1 u1 hok
    refine ⟨?_, ?_⟩
    · intro hn
      simp [update_me, hok, hn]
    · intro hk hs
      refine ⟨?_, ?_, ?_⟩
      · cases hhk : hk u1 uu.create_update_dict request <;>
          simp [update_me, hok, hs, hhk, Event.isNotify]
      · intro hhk
        simp [update_me, hok, hs, hhk]
      · intro e hhk
        simp [update_me, hok, hs, hhk]
  · intro e he
    simp [update_user, he]
  · intro st2 u2 hok
    refine ⟨?_, ?_⟩
    · intro hn
      simp [update_user, hok, hn]
    · intro hk hs
      refine ⟨?_, ?_, ?_⟩
      · cases hhk : hk u2 uu.create_update_dict_superuser request <;>
          simp [update_user, hok, hs, hhk, Event.isNotify]
      · intro hhk
        simp [update_user, hok, hs, hhk]
      · intro e hhk
        simp [update_user, hok, hs, hhk]

/-- C7 witness: with a configured succeeding handler, alice's successful
self-update produces exactly one after-update invocation. -/
theorem after_update_invoked_iff_update_succeeded_witness :
    ((update_me cfgHook.user_manager cfgHook.after_update req0 tryAdmin alice
        baseStore).2.2).countP Event.isNotify = 1 :=
  (((after_update_invoked_iff_update_succeeded cfgHook req0 tryAdmin alice
      carol baseStore).2.1 baseStore alice rfl).2 hookOk rfl).1

/-- C8: an update proposing an email that collides with another existing
account terminates with the 400 already-exists error on both update routes;
the failed update is atomic — the store is exactly as before, no partial
field application — and the after-update handler is never invoked (the event
trace is empty). -/
theorem email_collision_atomic_and_unnotified
    (cfg : RouterConfig) (request : Request) (uu : UserUpdate)
    (user : Account) (st : Store) (em : String)
    (hem : uu.email = some em)
    (hpw : uu.password = none)
    (hconf : emailConflict st user em = true) :
    cfg.user_manager.update uu user true st = .error .userAlreadyExists ∧
    cfg.user_manager.update uu user false st = .error .userAlreadyExists ∧
    update_me cfg.user_manager cfg.after_update request uu user st
      = (.httpError 400 (some (.codeOnly .UPDATE_USER_EMAIL_ALREADY_EXISTS)),
         st, []) ∧
    update_user cfg.user_manager cfg.after_update request uu user st
      = (.httpError 400 (some (.codeOnly .UPDATE_USER_EMAIL_ALREADY_EXISTS)),
         st, []) := by
  have hself : cfg.user_manager.update uu user true st
      = .error .userAlreadyExists := by
    unfold UserManager.update UserManager.validateAndPersist
      UserManager.persist
    simp [UserUpdate.create_update_dict, hem, hpw, hconf]
  have hadmin : cfg.user_manager.update uu user false st
      = .error .userAlreadyExists := by
    unfold UserManager.update UserManager.validateAndPersist
      UserManager.persist
    simp [UserUpdate.create_update_dict_superuser, hem, hpw, hconf]
  refine ⟨hself, hadmin, ?_, ?_⟩
  · unfold update_me; rw [hself]; rfl
  · unfold update_user; rw [hadmin]; rfl

/-- C8 witness: alice PATCHes an email equal to bob's; the self-route handler
answers the fixed 400 code, the store is unchanged and no event occurred. -/
theorem email_collision_atomic_and_unnotified_witness :
    update_me cfgPlain.user_manager cfgPlain.after_update req0 tryEmail alice
        baseStore
      = (.httpError 400 (some (.codeOnly .UPDATE_USER_EMAIL_ALREADY_EXISTS)),
         baseStore, []) :=
  (email_collision_atomic_and_unnotified cfgPlain req0 tryEmail alice
    baseStore "bob@example.com" rfl rfl (by decide)).2.2.1

/-- C9: an authorized DELETE `/{id}` on an existing account calls the store
deletion with the looked-up account, answers 204 with an empty body, and
invokes no after-update handler — the trace holds no notify event no matter
which handler is configured, since the source defines no post-delete
callback. -/
theorem delete_returns_204_without_notify
    (cfg : RouterConfig) (id : Nat) (p : Option Account) (st : Store)
    (v target : Account)
    (hg : get_current_superuser cfg p = .ok v)
    (hfound : cfg.user_manager.get id st = .ok target) :
    route_delete_id cfg id p st
      = ⟨.ok 204 none, cfg.user_manager.delete target st,
         [.lookup id, .delete target, .respond]⟩ ∧
    (route_delete_id cfg id p st).events.countP Event.isNotify = 0 := by
  have h : get_user_or_404 cfg.user_manager id st = .ok target := by
    unfold get_user_or_404
    rw [hfound]
  have heq : route_delete_id cfg id p st
      = ⟨.ok 204 none, cfg.user_manager.delete target st,
         [.lookup id, .delete target, .respond]⟩ := by
    unfold route_delete_id
    rw [hg, h]
    rfl
  refine ⟨heq, ?_⟩
  rw [heq]
  simp [Event.isNotify]

/-- C9 witness: superuser bob DELETEs carol's id under a configuration with
an after-update handler; the route answers an empty 204 and the trace shows
the deletion and no notify. -/
theorem delete_returns_204_without_notify_witness :
    route_delete_id cfgHook 3 (some bob) baseStore
      = ⟨.ok 204 none, cfgHook.user_manager.delete carol baseStore,
         [.lookup 3, .delete carol, .respond]⟩ ∧
    (route_delete_id cfgHook 3 (some bob) baseStore).events.countP
      Event.isNotify = 0 :=
  delete_returns_204_without_notify cfgHook 3 (some bob) baseStore bob carol
    rfl rfl

/-- C10: in both update handlers the except clauses also enclose the
after-update invocation: a handler that raises InvalidPasswordException or
UserAlreadyExists after the store update was committed turns the request into
the corresponding 400 while the store keeps the committed state (the
mutation is not rolled back); any other exception from the handler
propagates uncaught. -/
theorem hook_errors_caught_after_commit
    (cfg : RouterConfig) (request : Request) (uu : UserUpdate)
    (user target : Account) (st st1 st2 : Store) (u1 u2 : Account)
    (hk : AfterUpdateHook)
    (hcfg : cfg.after_update = some hk)
    (hself : cfg.user_manager.update uu user true st = .ok (st1, u1))
    (hadmin : cfg.user_manager.update uu target false st = .ok (st2, u2)) :
    (∀ r, hk u1 uu.create_update_dict request
        = .error (.invalidPassword r) →
      update_me cfg.user_manager cfg.after_update request uu user st
        = (.httpError 400
            (some (.codeWithReason .UPDATE_USER_INVALID_PASSWORD r)), st1,
           [.persist user, .notify u1 uu.create_update_dict request])) ∧
    (hk u1 uu.create_update_dict request = .error .userAlreadyExists →
      update_me cfg.user_manager cfg.after_update request uu user st
        = (.httpError 400
            (some (.codeOnly .UPDATE_USER_EMAIL_ALREADY_EXISTS)), st1,
           [.persist user, .notify u1 uu.create_update_dict request])) ∧
    (∀ msg, hk u1 uu.create_update_dict request = .error (.other msg) →
      update_me cfg.user_manager cfg.after_update request uu user st
        = (.uncaught (.other msg), st1,
           [.persist user, .notify u1 uu.create_update_dict request])) ∧
    (∀ r, hk u2 uu.create_update_dict_superuser request
        = .error (.invalidPassword r) →
      update_user cfg.user_manager cfg.after_update request uu target st
        = (.httpError 400
            (some (.codeWithReason .UPDATE_USER_INVALID_PASSWORD r)), st2,
           [.persist target,
            .notify u2 uu.create_update_dict_superuser request])) ∧
    (hk u2 uu.create_update_dict_superuser request
        = .error .userAlreadyExists →
      update_user cfg.user_manager cfg.after_update request uu target st
        = (.httpError 400
            (some (.codeOnly .UPDATE_USER_EMAIL_ALREADY_EXISTS)), st2,
           [.persist target,
            .notify u2 uu.create_update_dict_superuser request])) ∧
    (∀ msg, hk u2 uu.create_update_dict_superuser request
        = .error (.other msg) →
      update_user cfg.user_manager cfg.after_update request uu target st
        = (.uncaught (.other msg), st2,
           [.persist target,
            .notify u2 uu.create_update_dict_superuser request])) := by
  refine ⟨?_, ?_, ?_, ?_, ?_, ?_⟩
  · intro r hb
    simp [update_me, hself, hcfg, hb, translate_update_error]
  · intro hb
    simp [update_me, hself, hcfg, hb, translate_update_error]
  · intro msg hb
    simp [update_me, hself, hcfg, hb, translate_update_error]
  · intro r hb
    simp [update_user, hadmin, hcfg, hb, translate_update_error]
  · intro hb
    simp [update_user, hadmin, hcfg, hb, translate_update_error]
  · intro msg hb
    simp [update_user, hadmin, hcfg, hb, translate_update_error]

/-- C10 witness: with a handler that raises InvalidPasswordException, alice's
committed self-update is answered with the 400 invalid-password error while
the store keeps the committed state. -/
theorem hook_errors_caught_after_commit_witness :
    update_me cfgHookRaise.user_manager cfgHookRaise.after_update req0
        tryAdmin alice baseStore
      = (.httpError 400
          (some (.codeWithReason .UPDATE_USER_INVALID_PASSWORD
            "hook says no")), baseStore,
         [.persist alice, .notify alice tryAdmin.create_update_dict req0]) :=
  (hook_errors_caught_after_commit cfgHookRaise req0 tryAdmin alice carol
    baseStore baseStore storeCarolSup alice carolSup hookRaisePw rfl rfl
    rfl).1 "hook says no" rfl

end FastapiUsers
